import Mathlib

/-!
Verification development for the cloudflare-ddns-cron updater.

The Go program keeps one Cloudflare DNS A record in sync with the host's
public IPv4 address.  This file gives a shallow embedding of the program:

* Go standard-library string helpers used by the program
  (strings.TrimSpace, strings.ToLower/ToUpper, strconv.Atoi, strings.Split);
* Go net.ParseIP / IP.To4 / IP.String, translated from net/netip
  (parseIPv4, parseIPv6, the dispatch on the first special character);
* discoverIP, translated from the source loop, with HTTP effects replaced
  by a per-service outcome oracle and an explicit request counter;
* loadConfig, fetchDNSRecord, updateDNSRecord, applyAuthHeaders and the
  main reconciliation driver, with HTTP responses as oracle inputs.

Theorems about these definitions settle the frozen claims.
-/

deriving instance DecidableEq for Except

namespace Ddns

/-! ## Go string helpers -/

/-- Character class of unicode.IsSpace, as used by strings.TrimSpace:
the six ASCII space characters plus the Unicode White_Space code points. -/
def goIsSpace (c : Char) : Bool :=
  let n := c.toNat
  if n = 9 ∨ n = 10 ∨ n = 11 ∨ n = 12 ∨ n = 13 ∨ n = 32 ∨
     n = 0x85 ∨ n = 0xa0 ∨ n = 0x1680 ∨ (0x2000 ≤ n ∧ n ≤ 0x200a) ∨
     n = 0x2028 ∨ n = 0x2029 ∨ n = 0x202f ∨ n = 0x205f ∨ n = 0x3000
  then true else false

/-- strings.TrimSpace: drop leading and trailing white space. -/
def goTrimSpace (s : String) : String :=
  String.mk (((s.data.dropWhile goIsSpace).reverse.dropWhile goIsSpace).reverse)

/-- strings.ToLower, on the ASCII fragment exercised by the program. -/
def goToLower (s : String) : String :=
  String.mk (s.data.map Char.toLower)

/-- strings.ToUpper, on the ASCII fragment exercised by the program. -/
def goToUpper (s : String) : String :=
  String.mk (s.data.map Char.toUpper)

/-- Decimal digit run: value of a non-empty all-digit list, else none. -/
def decValue : List Char → Nat → Option Nat
  | [], acc => some acc
  | c :: rest, acc =>
    if 48 ≤ c.toNat ∧ c.toNat ≤ 57 then decValue rest (acc * 10 + (c.toNat - 48))
    else none

/-- strconv.Atoi: optional sign, non-empty digit run, 64-bit signed range. -/
def goAtoi (s : String) : Option Int :=
  match s.data with
  | [] => none
  | c :: rest =>
    let signed : Bool × List Char :=
      if c = '+' then (false, rest)
      else if c = '-' then (true, rest)
      else (false, c :: rest)
    match signed.2 with
    | [] => none
    | ds =>
      match decValue ds 0 with
      | none => none
      | some n =>
        if signed.1 then
          if n ≤ 2 ^ 63 then some (-(n : Int)) else none
        else
          if n ≤ 2 ^ 63 - 1 then some (n : Int) else none

/-- strings.Split with separator a single comma. -/
def splitComma : List Char → List (List Char)
  | [] => [[]]
  | c :: rest =>
    if c = ',' then [] :: splitComma rest
    else
      match splitComma rest with
      | [] => [[c]]
      | g :: gs => (c :: g) :: gs

/-! ## Go net.ParseIP, from net/netip

net.ParseIP delegates to netip.ParseAddr and rejects addresses with a
zone; for IPv4 input it returns the 16-byte IPv4-mapped form (As16).
An address is a list of 16 byte values. -/

/-- parseIPv4Fields from net/netip: dotted-decimal fields, one to three
digits each, no leading zero, value at most 255, exactly four fields.
Arguments: remaining characters, current field value, digits seen in the
current field, fields already completed. -/
def parseIPv4Fields : List Char → Nat → Nat → List Nat → Option (List Nat)
  | [], val, _, acc => if acc.length < 3 then none else some (acc ++ [val])
  | c :: rest, val, digLen, acc =>
    if 48 ≤ c.toNat ∧ c.toNat ≤ 57 then
      if digLen = 1 ∧ val = 0 then none
      else
        let v := val * 10 + (c.toNat - 48)
        if 255 < v then none else parseIPv4Fields rest v (digLen + 1) acc
    else if c = '.' then
      if digLen = 0 then none
      else if rest = [] then none
      else if acc.length = 3 then none
      else parseIPv4Fields rest 0 0 (acc ++ [val])
    else none

/-- netip parseIPv4: the four dotted-decimal fields of an IPv4 literal. -/
def parseIPv4 (s : List Char) : Option (List Nat) :=
  parseIPv4Fields s 0 0 []

/-- Value of a hexadecimal digit character, as in the netip IPv6 field scan. -/
def hexVal (c : Char) : Option Nat :=
  let n := c.toNat
  if 48 ≤ n ∧ n ≤ 57 then some (n - 48)
  else if 97 ≤ n ∧ n ≤ 102 then some (n - 87)
  else if 65 ≤ n ∧ n ≤ 70 then some (n - 55)
  else none

/-- Hex-digit scan of one IPv6 group: accumulated value, number of digits
consumed, remaining characters; none when a group value reaches 2^16. -/
def v6HexScan : List Char → Nat → Nat → Option (Nat × Nat × List Char)
  | [], acc, off => some (acc, off, [])
  | c :: rest, acc, off =>
    match hexVal c with
    | none => some (acc, off, c :: rest)
    | some d =>
      let a := acc * 16 + d
      if 65535 < a then none else v6HexScan rest a (off + 1)

/-- Split the input at the first percent sign: (address part, zone).
The zone is none when no percent sign occurs. -/
def breakAtPercent : List Char → List Char × Option (List Char)
  | [] => ([], none)
  | c :: rest =>
    if c = '%' then ([], some rest)
    else
      let p := breakAtPercent rest
      (c :: p.1, p.2)

/-- Main loop of netip parseIPv6.  State: bytes written so far, position of
the double-colon ellipsis if seen, remaining characters.  Returns the loop
exit state; the fuel bounds the at most eight groups and is never exhausted
on reachable states. -/
def parseIPv6Loop : Nat → List Nat → Option Nat → List Char → Option (List Nat × Option Nat × List Char)
  | fuel, bytes, ell, s =>
    if 16 ≤ bytes.length then some (bytes, ell, s)
    else
      match fuel with
      | 0 => none
      | fuel' + 1 =>
        match v6HexScan s 0 0 with
        | none => none
        | some (acc, off, rest) =>
          if off = 0 then none
          else
            match rest with
            | '.' :: _ =>
              if ell = none ∧ bytes.length ≠ 12 then none
              else if 16 < bytes.length + 4 then none
              else
                match parseIPv4 s with
                | none => none
                | some quad => some (bytes ++ quad, ell, [])
            | _ =>
              let bytes2 := bytes ++ [acc / 256, acc % 256]
              match rest with
              | [] => some (bytes2, ell, [])
              | c :: rest2 =>
                if c ≠ ':' then none
                else
                  match rest2 with
                  | [] => none
                  | ':' :: rest3 =>
                    if ell ≠ none then none
                    else if rest3 = [] then some (bytes2, some bytes2.length, [])
                    else parseIPv6Loop fuel' bytes2 (some bytes2.length) rest3
                  | rest3 => parseIPv6Loop fuel' bytes2 ell rest3

/-- After the netip parseIPv6 loop: reject leftover input, expand the
ellipsis when fewer than 16 bytes were written, reject a redundant
ellipsis on a full address. -/
def finishIPv6 (bytes : List Nat) (ell : Option Nat) (sRem : List Char)
    (zone : Option (List Char)) : Option (List Nat × Option (List Char)) :=
  if sRem ≠ [] then none
  else if bytes.length < 16 then
    match ell with
    | none => none
    | some e => some (bytes.take e ++ List.replicate (16 - bytes.length) 0 ++ bytes.drop e, zone)
  else if ell ≠ none then none
  else some (bytes, zone)

/-- netip parseIPv6: zone split, optional leading double colon, group loop,
ellipsis expansion.  Result: 16 bytes and the optional zone. -/
def parseIPv6 (inp : List Char) : Option (List Nat × Option (List Char)) :=
  let pz := breakAtPercent inp
  let s := pz.1
  let zone := pz.2
  if zone = some [] then none
  else
    match s with
    | ':' :: ':' :: rest =>
      if rest = [] then some (List.replicate 16 0, zone)
      else
        match parseIPv6Loop 16 [] (some 0) rest with
        | none => none
        | some (bytes, ell, sRem) => finishIPv6 bytes ell sRem zone
    | other =>
      match parseIPv6Loop 16 [] none other with
      | none => none
      | some (bytes, ell, sRem) => finishIPv6 bytes ell sRem zone

/-- The IPv4-mapped IPv6 prefix: ten zero bytes then two 0xff bytes. -/
def v4InV6 : List Nat := [0, 0, 0, 0, 0, 0, 0, 0, 0, 0, 255, 255]

/-- netip ParseAddr dispatch: scan for the first special character of the
whole string; a dot selects the IPv4 grammar, a colon the IPv6 grammar, a
percent sign is an error, and a string with no special character is an
error.  net.ParseIP additionally rejects any address carrying a zone and
returns the 16-byte form. -/
def parseAddrScan : List Char → List Char → Option (List Nat)
  | _, [] => none
  | s, c :: rest =>
    if c = '.' then (parseIPv4 s).map (fun quad => v4InV6 ++ quad)
    else if c = ':' then
      match parseIPv6 s with
      | some (bytes, none) => some bytes
      | _ => none
    else if c = '%' then none
    else parseAddrScan s rest

/-- net.ParseIP: 16 address bytes, or none when the string is not an IP
address (or carries a zone). -/
def goParseIP (s : List Char) : Option (List Nat) :=
  parseAddrScan s s

/-- IP.To4: the four IPv4 bytes when the address is IPv4-mapped, else none. -/
def to4 (bs : List Nat) : Option (List Nat) :=
  if bs.take 12 = v4InV6 then some (bs.drop 12) else none

/-- IP.String on a To4 result: dotted-decimal with no padding. -/
def ip4String (quad : List Nat) : String :=
  String.intercalate (".") (quad.map Nat.repr)

/-! ## discoverIP

The source iterates the configured service URLs; for each it builds a GET
request, performs it, reads the body, trims it, parses it with
net.ParseIP, converts with To4, and returns the canonical string of the
first IPv4 success.  The HTTP effects are replaced by one outcome per
service; client.Do invocations are counted explicitly. -/

/-- Outcome of contacting one IP service: the request constructor fails,
the transport fails, the body read fails, or a body string is returned. -/
inductive ServiceOutcome where
  | reqError
  | transportError
  | readError
  | body (s : String)
deriving DecidableEq, Repr

/-- Normalization of a string to canonical IPv4 text: net.ParseIP, then
To4, then String — exactly the chain the source applies to a trimmed
service response. -/
def canonicalIPv4 (s : String) : Option String :=
  match goParseIP s.data with
  | none => none
  | some bs =>
    match to4 bs with
    | none => none
    | some quad => some (ip4String quad)

/-- What the source does with a service response body: trim surrounding
white space, parse, require IPv4, render canonically. -/
def serviceIP (respBody : String) : Option String :=
  canonicalIPv4 (goTrimSpace respBody)

/-- Result of one iteration of the discovery loop for a given outcome:
some canonical IPv4 on success, none when the loop continues. -/
def attemptService : ServiceOutcome → Option String
  | .body s => serviceIP s
  | _ => none

/-- Number of client.Do calls one service attempt performs: zero when
http.NewRequest already failed, otherwise one. -/
def doCalls : ServiceOutcome → Nat
  | .reqError => 0
  | _ => 1

/-- Total client.Do calls over a list of attempted services. -/
def requestCount (l : List ServiceOutcome) : Nat :=
  (l.map doCalls).sum

/-- The aggregate discovery failure message from the source; it names no
individual service. -/
def discoveryExhaustedMsg : String :=
  "unable to discover IPv4 address from configured services"

/-- discoverIP with an instrumented request counter: the loop returns on
the first service whose body yields an IPv4 address; afterwards no further
service is contacted.  The second component counts client.Do calls. -/
def discoverIPTrace : List ServiceOutcome → Except String String × Nat
  | [] => (.error discoveryExhaustedMsg, 0)
  | o :: rest =>
    match attemptService o with
    | some ip => (.ok ip, doCalls o)
    | none =>
      let r := discoverIPTrace rest
      (r.1, doCalls o + r.2)

/-- discoverIP as in the source: the result component of the trace. -/
def discoverIP (services : List ServiceOutcome) : Except String String :=
  (discoverIPTrace services).1

/-! ## Configuration loading

loadConfig reads nine environment variables; the environment is modelled
as a record of their raw string values. -/

/-- Raw values of the environment variables consumed by loadConfig. -/
structure Env where
  authEmail : String
  authMethod : String
  authKey : String
  zoneID : String
  recordName : String
  recordType : String
  ttl : String
  proxied : String
  ipServices : String
deriving DecidableEq, Repr

/-- Config from the source, same fields. -/
structure Config where
  AuthEmail : String
  AuthMethod : String
  AuthKey : String
  ZoneID : String
  RecordName : String
  RecordType : String
  TTL : Int
  Proxied : Bool
  IPServices : List String
deriving DecidableEq, Repr

/-- The error cases of loadConfig, one per fmt.Errorf site, carrying the
offending value where the message interpolates one. -/
inductive ConfigError where
  | invalidTTL (v : String)
  | invalidProxied (v : String)
  | missingAuthKey
  | missingAuthEmail
  | unsupportedAuthMethod (m : String)
  | missingZoneID
  | missingRecordName
  | unsupportedRecordType (t : String)
deriving DecidableEq, Repr

/-- Default IP discovery endpoints from the source. -/
def defaultIPServices : List String :=
  ["https://api.ipify.org", "https://ipv4.icanhazip.com", "https://ipinfo.io/ip"]

/-- TTL handling in loadConfig: empty means the default 300, otherwise
strconv.Atoi must succeed with a value of at least 60. -/
def parseTTL (v : String) : Except ConfigError Int :=
  if v = "" then .ok 300
  else
    match goAtoi v with
    | none => .error (.invalidTTL v)
    | some t => if t < 60 then .error (.invalidTTL v) else .ok t

/-- Proxied handling in loadConfig: switch on the lower-cased value. -/
def parseProxied (v : String) : Except ConfigError Bool :=
  let lv := goToLower v
  if lv = "" then .ok false
  else if lv = "false" then .ok false
  else if lv = "true" then .ok true
  else .error (.invalidProxied v)

/-- IP service list handling in loadConfig: empty means the defaults;
otherwise split on commas, trim each entry, keep the non-empty ones, and
fall back to the defaults when nothing remains. -/
def parseServices (v : String) : List String :=
  if v = "" then defaultIPServices
  else
    let svcs := ((splitComma v.data).map (fun l => goTrimSpace (String.mk l))).filter
      (fun t => t ≠ "")
    if svcs = [] then defaultIPServices else svcs

/-- The auth-method switch of loadConfig: token passes (with only a log
warning when the email is empty), global requires a non-empty email, and
anything else is unsupported. -/
def validateAuth (method email : String) : Except ConfigError Unit :=
  if method = "token" then .ok ()
  else if method = "global" then
    if email = "" then .error .missingAuthEmail else .ok ()
  else .error (.unsupportedAuthMethod method)

/-- loadConfig from the source: trim and case-normalize the raw values,
apply the defaults, validate TTL, proxied flag, services, auth key and
method, zone, record name and record type, in source order. -/
def loadConfig (env : Env) : Except ConfigError Config :=
  let authEmail := goTrimSpace env.authEmail
  let authMethod0 := goToLower (goTrimSpace env.authMethod)
  let authMethod := if authMethod0 = "" then "token" else authMethod0
  let authKey := goTrimSpace env.authKey
  let zoneID := goTrimSpace env.zoneID
  let recordName := goTrimSpace env.recordName
  let recordType0 := goToUpper (goTrimSpace env.recordType)
  let recordType := if recordType0 = "" then "A" else recordType0
  match parseTTL (goTrimSpace env.ttl) with
  | .error e => .error e
  | .ok ttl =>
    match parseProxied (goTrimSpace env.proxied) with
    | .error e => .error e
    | .ok proxied =>
      let ipServices := parseServices (goTrimSpace env.ipServices)
      if authKey = "" then .error .missingAuthKey
      else
        match validateAuth authMethod authEmail with
        | .error e => .error e
        | .ok _ =>
          if zoneID = "" then .error .missingZoneID
          else if recordName = "" then .error .missingRecordName
          else if recordType ≠ "A" then .error (.unsupportedRecordType recordType)
          else .ok { AuthEmail := authEmail, AuthMethod := authMethod, AuthKey := authKey,
                     ZoneID := zoneID, RecordName := recordName, RecordType := recordType,
                     TTL := ttl, Proxied := proxied, IPServices := ipServices }

/-! ## Cloudflare request headers -/

/-- The headers the program ever sets on a Cloudflare request. -/
structure Headers where
  authorization : Option String
  xAuthKey : Option String
  xAuthEmail : Option String
  contentType : Option String
deriving DecidableEq, Repr

/-- A request before authentication headers are applied. -/
def emptyHeaders : Headers :=
  { authorization := none, xAuthKey := none, xAuthEmail := none, contentType := none }

/-- applyAuthHeaders from the source: set the email header when an email
is configured; under the global method set the raw key header and return;
otherwise set the bearer authorization header. -/
def applyAuthHeaders (cfg : Config) (h : Headers) : Headers :=
  let h1 := if cfg.AuthEmail ≠ "" then { h with xAuthEmail := some cfg.AuthEmail } else h
  if cfg.AuthMethod = "global" then { h1 with xAuthKey := some cfg.AuthKey }
  else { h1 with authorization := some ("Bearer " ++ cfg.AuthKey) }

/-- Headers of the fetch (list) request: applyAuthHeaders on a fresh GET. -/
def fetchRequestHeaders (cfg : Config) : Headers :=
  applyAuthHeaders cfg emptyHeaders

/-- Headers of the update (PATCH) request: a JSON content type, then the
same applyAuthHeaders. -/
def updateRequestHeaders (cfg : Config) : Headers :=
  applyAuthHeaders cfg { emptyHeaders with contentType := some ("application/json") }

/-! ## Cloudflare fetch and update -/

/-- One error entry of a Cloudflare response. -/
structure ApiError where
  code : Int
  message : String
deriving DecidableEq, Repr

/-- A Cloudflare DNS record as decoded from the list response. -/
structure DNSRecord where
  id : String
  type : String
  name : String
  content : String
  ttl : Int
  proxied : Bool
deriving DecidableEq, Repr

/-- Decoded body of the list (fetch) response. -/
structure ListResponse where
  success : Bool
  errors : List ApiError
  result : List DNSRecord
deriving DecidableEq, Repr

/-- Decoded body of the update response. -/
structure UpdateResponse where
  success : Bool
  errors : List ApiError
deriving DecidableEq, Repr

/-- The error cases of fetchDNSRecord and updateDNSRecord, one per return
site in the source. -/
inductive CFError where
  | transport
  | badStatus (code : Nat)
  | decodeFailed
  | rejected (errs : List ApiError)
  | notFound (name : String)
  | updateRejected (errs : List ApiError)
deriving DecidableEq, Repr

/-- Oracle for the fetch HTTP call: the transport fails, or a response
arrives with a status code and a body that either decodes as a
ListResponse or fails to decode. -/
inductive FetchOutcome where
  | transportError
  | response (status : Nat) (decoded : Option ListResponse)
deriving DecidableEq, Repr

/-- Oracle for the update HTTP call. -/
inductive UpdateOutcome where
  | transportError
  | response (status : Nat) (decoded : Option UpdateResponse)
deriving DecidableEq, Repr

/-- fetchDNSRecord from the source: transport error, then non-200 status,
then decode failure, then the provider success flag, then emptiness of the
result list; otherwise the first result. -/
def fetchDNSRecord (cfg : Config) (o : FetchOutcome) : Except CFError DNSRecord :=
  match o with
  | .transportError => .error .transport
  | .response status decoded =>
    if status ≠ 200 then .error (.badStatus status)
    else
      match decoded with
      | none => .error .decodeFailed
      | some payload =>
        if payload.success = false then .error (.rejected payload.errors)
        else
          match payload.result with
          | [] => .error (.notFound cfg.RecordName)
          | r :: _ => .ok r

/-- Body of the update request, as built by updateDNSRecord: the full
desired state, not only the changed content. -/
structure UpdatePayload where
  type : String
  name : String
  content : String
  ttl : Int
  proxied : Bool
deriving DecidableEq, Repr

/-- The JSON object updateDNSRecord marshals: type, name and TTL and
proxied flag from the configuration, content the new IP. -/
def updatePayload (cfg : Config) (newIP : String) : UpdatePayload :=
  { type := cfg.RecordType, name := cfg.RecordName, content := newIP,
    ttl := cfg.TTL, proxied := cfg.Proxied }

/-- updateDNSRecord from the source: transport error, then non-200 status,
then decode failure, then the provider success flag. -/
def updateDNSRecord (cfg : Config) (recordID newIP : String) (o : UpdateOutcome) :
    Except CFError Unit :=
  match o with
  | .transportError => .error .transport
  | .response status decoded =>
    if status ≠ 200 then .error (.badStatus status)
    else
      match decoded with
      | none => .error .decodeFailed
      | some result =>
        if result.success = false then .error (.updateRejected result.errors)
        else .ok ()

/-! ## The reconciliation driver (main) -/

/-- A Cloudflare request issued by one run.  The program only ever issues
the list (fetch) request and the update request for an existing record
identifier; there is no record-creation request. -/
inductive RunAction where
  | fetchCall (headers : Headers)
  | updateCall (recordID : String) (payload : UpdatePayload) (headers : Headers)
deriving DecidableEq, Repr

/-- Terminal state of one run of main. -/
inductive RunOutcome where
  | discoveryFailed (msg : String)
  | fetchFailed (e : CFError)
  | noOpDone (recordName : String)
  | updateFailed (e : CFError)
  | done (recordName oldIP newIP : String)
deriving DecidableEq, Repr

/-- main from the source, after configuration loading: discover the IP,
fetch the record, compare the record content with the discovered IP by
string equality, and either stop (record up to date) or issue exactly one
update carrying the full desired state.  The second component lists the
Cloudflare requests issued. -/
def runMain (cfg : Config) (services : List ServiceOutcome) (fo : FetchOutcome)
    (uo : UpdateOutcome) : RunOutcome × List RunAction :=
  match discoverIP services with
  | .error e => (.discoveryFailed e, [])
  | .ok ip =>
    match fetchDNSRecord cfg fo with
    | .error e => (.fetchFailed e, [.fetchCall (fetchRequestHeaders cfg)])
    | .ok record =>
      if record.content = ip then
        (.noOpDone record.name, [.fetchCall (fetchRequestHeaders cfg)])
      else
        match updateDNSRecord cfg record.id ip uo with
        | .error e =>
          (.updateFailed e,
           [.fetchCall (fetchRequestHeaders cfg),
            .updateCall record.id (updatePayload cfg ip) (updateRequestHeaders cfg)])
        | .ok _ =>
          (.done record.name record.content ip,
           [.fetchCall (fetchRequestHeaders cfg),
            .updateCall record.id (updatePayload cfg ip) (updateRequestHeaders cfg)])

/-- Whether a run action is an update request. -/
def isUpdateCall : RunAction → Bool
  | .updateCall _ _ _ => true
  | _ => false

/-- Number of update requests in a run's action list. -/
def updateCalls (l : List RunAction) : Nat :=
  (l.filter isUpdateCall).length

/-! ## Concrete values used by counterexample and witness theorems -/

/-- A valid token-method configuration. -/
def cfgTok : Config :=
  { AuthEmail := "", AuthMethod := "token", AuthKey := "k",
    ZoneID := "z", RecordName := "example.com", RecordType := "A",
    TTL := 300, Proxied := false, IPServices := defaultIPServices }

/-- A valid global-method configuration. -/
def cfgGlob : Config :=
  { AuthEmail := "user@example.com", AuthMethod := "global", AuthKey := "gk",
    ZoneID := "z", RecordName := "example.com", RecordType := "A",
    TTL := 120, Proxied := true, IPServices := defaultIPServices }

/-- A fetched record whose content is the IPv4-mapped IPv6 spelling of the
discovered address. -/
def recordMapped : DNSRecord :=
  { id := "rid", type := "A", name := "example.com",
    content := "::ffff:203.0.113.10", ttl := 120, proxied := false }

/-- Fetch outcome delivering recordMapped successfully. -/
def fetchMapped : FetchOutcome :=
  .response 200 (some { success := true, errors := [], result := [recordMapped] })

/-- A successful update outcome. -/
def updOK : UpdateOutcome :=
  .response 200 (some { success := true, errors := [] })

/-- A single service answering with the plain dotted-decimal address. -/
def servicesPlain : List ServiceOutcome :=
  [.body ("203.0.113.10")]

/-- A prefix of failing services covering all failure kinds: request
construction, transport, body read, non-IP body, IPv6-only body. -/
def preFail : List ServiceOutcome :=
  [.reqError, .transportError, .readError, .body ("not-an-ip"), .body ("::1")]

/-- A fetched record whose content equals the discovered address verbatim. -/
def recordPlain : DNSRecord :=
  { id := "rid", type := "A", name := "example.com",
    content := "203.0.113.10", ttl := 120, proxied := false }

/-- Fetch outcome delivering recordPlain successfully. -/
def fetchPlain : FetchOutcome :=
  .response 200 (some { success := true, errors := [], result := [recordPlain] })

/-- A fetched record holding a stale address. -/
def recordOld : DNSRecord :=
  { id := "rid", type := "A", name := "example.com",
    content := "198.51.100.2", ttl := 120, proxied := false }

/-- Fetch outcome delivering recordOld successfully. -/
def fetchOld : FetchOutcome :=
  .response 200 (some { success := true, errors := [], result := [recordOld] })

/-- A decoded fetch body the provider flagged as failed. -/
def rejectedResponse : ListResponse :=
  { success := false, errors := [{ code := 9109, message := "Invalid access token" }],
    result := [] }

/-- A successful decoded fetch body with zero matching records. -/
def emptyOKResponse : ListResponse :=
  { success := true, errors := [], result := [] }

/-- An environment with only the required variables set. -/
def envOK : Env :=
  { authEmail := "", authMethod := "", authKey := "k", zoneID := "z",
    recordName := "example.com", recordType := "", ttl := "", proxied := "",
    ipServices := "" }

/-- The configuration loadConfig builds from envOK. -/
def cfgDefault : Config :=
  { AuthEmail := "", AuthMethod := "token", AuthKey := "k", ZoneID := "z",
    RecordName := "example.com", RecordType := "A", TTL := 300, Proxied := false,
    IPServices := defaultIPServices }

/-! ## Helper lemmas -/

/-- A successful parseTTL result is at least 60 and is the default 300 on
empty input. -/
theorem parseTTL_ok (v : String) (t : Int) (h : parseTTL v = .ok t) :
    60 ≤ t ∧ (v = "" → t = 300) := by
  unfold parseTTL at h
  split at h
  · injection h with h
    exact ⟨by omega, fun _ => h.symm⟩
  · next hv =>
    split at h
    · exact Except.noConfusion h
    · split at h
      · exact Except.noConfusion h
      · next n hn =>
        injection h with h
        exact ⟨by omega, fun hv' => absurd hv' hv⟩

/-- A successful parseProxied result is false on empty input. -/
theorem parseProxied_ok (v : String) (b : Bool) (h : parseProxied v = .ok b) :
    v = "" → b = false := by
  intro hv; subst hv
  have hp : parseProxied "" = .ok false := by decide
  rw [hp] at h
  injection h with h
  exact h.symm

/-- parseServices never returns an empty list, and returns the defaults
on empty input. -/
theorem parseServices_spec (v : String) :
    parseServices v ≠ [] ∧ (v = "" → parseServices v = defaultIPServices) := by
  simp only [parseServices]
  by_cases hv : v = ""
  · rw [if_pos hv]
    exact ⟨by decide, fun _ => rfl⟩
  · rw [if_neg hv]
    refine ⟨?_, fun hv' => absurd hv' hv⟩
    split
    · decide
    · next hne => exact hne

/-- A successful validateAuth certifies the method is token or global,
and under global a non-empty email. -/
theorem validateAuth_ok (m e : String) (h : validateAuth m e = .ok ()) :
    (m = "token" ∨ m = "global") ∧ (m = "global" → e ≠ "") := by
  unfold validateAuth at h
  by_cases hm : m = "token"
  · exact ⟨.inl hm, fun hg => absurd (hm.symm.trans hg) (by decide)⟩
  · rw [if_neg hm] at h
    by_cases hg : m = "global"
    · rw [if_pos hg] at h
      by_cases he : e = ""
      · rw [if_pos he] at h; exact Except.noConfusion h
      · exact ⟨.inr hg, fun _ => he⟩
    · rw [if_neg hg] at h; exact Except.noConfusion h

/-! ## Claim theorems: IP discovery -/

/-- C1: for a non-empty ordered service list whose first N-1 entries fail
(request construction, transport, body read, non-IP body, IPv6-only body)
and whose N-th entry returns a body that parses as an IPv4 address,
discoverIP returns that address in canonical dotted-decimal form, and the
number of requests issued is that of the failing prefix plus one — no
service after the N-th is contacted, whatever follows. -/
theorem discoverIP_first_ipv4_wins (pre rest : List ServiceOutcome) (b : String)
    (bs quad : List Nat)
    (hpre : ∀ o ∈ pre, attemptService o = none)
    (hparse : goParseIP (goTrimSpace b).data = some bs)
    (h4 : to4 bs = some quad) :
    discoverIPTrace (pre ++ .body b :: rest) = (.ok (ip4String quad), requestCount pre + 1) := by
  induction pre with
  | nil =>
    simp [discoverIPTrace, attemptService, serviceIP, canonicalIPv4, hparse, h4,
      requestCount, doCalls]
  | cons o pre ih =>
    have ho : attemptService o = none := hpre o (by simp)
    have hpre' : ∀ x ∈ pre, attemptService x = none := fun x hx => hpre x (by simp [hx])
    have ih' := ih hpre'
    simp only [List.cons_append, discoverIPTrace, ho]
    simp [ih', requestCount, Nat.add_assoc]

/-- Witness for C1 at a concrete list: five failing services of all five
failure kinds, then a valid IPv4 body, then a further service that is
never contacted; five requests are issued in total. -/
theorem discoverIP_first_ipv4_wins_witness :
    (∀ o ∈ preFail, attemptService o = none) ∧
    goParseIP (goTrimSpace ("203.0.113.10")).data = some (v4InV6 ++ [203, 0, 113, 10]) ∧
    to4 (v4InV6 ++ [203, 0, 113, 10]) = some [203, 0, 113, 10] ∧
    discoverIPTrace (preFail ++ .body ("203.0.113.10") :: [.body ("9.9.9.9")]) =
      (.ok ("203.0.113.10"), 5) := by
  refine ⟨by decide, by decide, by decide, ?_⟩
  have h := discoverIP_first_ipv4_wins preFail [.body ("9.9.9.9")] ("203.0.113.10")
    (v4InV6 ++ [203, 0, 113, 10]) [203, 0, 113, 10] (by decide) (by decide) (by decide)
  rw [h]; decide

/-- C4: when every service fails to yield a valid IPv4 address, discoverIP
returns the aggregate discovery-exhausted error, a constant message naming
no individual service, and no IP address. -/
theorem discoverIP_all_fail (services : List ServiceOutcome)
    (h : ∀ o ∈ services, attemptService o = none) :
    discoverIP services = .error discoveryExhaustedMsg := by
  induction services with
  | nil => rfl
  | cons o rest ih =>
    have ho : attemptService o = none := h o (by simp)
    have h' : ∀ x ∈ rest, attemptService x = none := fun x hx => h x (by simp [hx])
    simp only [discoverIP, discoverIPTrace, ho]
    exact ih h'

/-- Witness for C4 at a concrete list of failing services. -/
theorem discoverIP_all_fail_witness :
    (∀ o ∈ ([.transportError, .body ("not-an-ip"), .body ("::1")] : List ServiceOutcome),
      attemptService o = none) ∧
    discoverIP [.transportError, .body ("not-an-ip"), .body ("::1")] =
      .error discoveryExhaustedMsg :=
  ⟨by decide, discoverIP_all_fail _ (by decide)⟩

/-- C9: on the empty service list, discoverIP issues no request at all and
returns the same aggregate discovery-exhausted error as when every service
fails. -/
theorem discoverIP_empty_no_requests :
    discoverIPTrace [] = (.error discoveryExhaustedMsg, 0) := rfl

/-- C10: a service body that net.ParseIP accepts and To4 converts — in
particular any IPv4-mapped IPv6 literal — is a discovery success, and the
returned string is the canonical dotted-decimal rendering of the four
IPv4 bytes, not the response body itself. -/
theorem discoverIP_accepts_v4mapped (b : String) (bs quad : List Nat)
    (hparse : goParseIP (goTrimSpace b).data = some bs)
    (h4 : to4 bs = some quad) :
    discoverIPTrace [.body b] = (.ok (ip4String quad), 1) := by
  simp [discoverIPTrace, attemptService, serviceIP, canonicalIPv4, hparse, h4, doCalls]

/-- Witness for C10: the IPv4-mapped literal with surrounding white space
parses to the mapped bytes, discovery returns the dotted-decimal form, and
the returned string differs textually from the trimmed body. -/
theorem discoverIP_accepts_v4mapped_witness :
    goParseIP (goTrimSpace (" ::ffff:203.0.113.10\n")).data =
      some (v4InV6 ++ [203, 0, 113, 10]) ∧
    to4 (v4InV6 ++ [203, 0, 113, 10]) = some [203, 0, 113, 10] ∧
    discoverIPTrace [.body (" ::ffff:203.0.113.10\n")] = (.ok ("203.0.113.10"), 1) ∧
    goTrimSpace (" ::ffff:203.0.113.10\n") ≠ "203.0.113.10" := by
  refine ⟨by decide, by decide, ?_, by decide⟩
  have h := discoverIP_accepts_v4mapped (" ::ffff:203.0.113.10\n")
    (v4InV6 ++ [203, 0, 113, 10]) [203, 0, 113, 10] (by decide) (by decide)
  rw [h]; decide

/-! ## Claim theorems: the reconciliation driver -/

/-- C2, counterexample: the driver does not compare after normalizing both
sides to canonical IPv4 text.  With discovered address 203.0.113.10 and a
fetched record whose content is the IPv4-mapped spelling of the very same
address, both sides normalize to the same canonical IPv4 text, yet the
driver issues one update call instead of the no-op the claim requires. -/
theorem compare_skips_normalization :
    discoverIP servicesPlain = .ok ("203.0.113.10") ∧
    fetchDNSRecord cfgTok fetchMapped = .ok recordMapped ∧
    canonicalIPv4 recordMapped.content = some ("203.0.113.10") ∧
    canonicalIPv4 ("203.0.113.10") = some ("203.0.113.10") ∧
    updateCalls (runMain cfgTok servicesPlain fetchMapped updOK).2 = 1 := by
  refine ⟨?_, ?_, ?_, ?_, ?_⟩ <;> decide

/-- C2 as amended: the driver issues an update call if and only if the
discovered IP differs from the fetched record's content as literal
strings — the discovered side is canonical dotted-decimal by construction,
the record content is compared verbatim without normalization; on literal
equality the driver performs zero update calls and ends in the no-op
success state. -/
theorem update_iff_content_differs (cfg : Config) (services : List ServiceOutcome)
    (fo : FetchOutcome) (uo : UpdateOutcome) (ip : String) (record : DNSRecord)
    (hd : discoverIP services = .ok ip)
    (hf : fetchDNSRecord cfg fo = .ok record) :
    updateCalls (runMain cfg services fo uo).2 = (if record.content = ip then 0 else 1) ∧
    (record.content = ip →
      runMain cfg services fo uo =
        (.noOpDone record.name, [.fetchCall (fetchRequestHeaders cfg)])) := by
  by_cases hc : record.content = ip
  · simp [runMain, hd, hf, hc, updateCalls, isUpdateCall]
  · cases hu : updateDNSRecord cfg record.id ip uo <;>
      simp [runMain, hd, hf, hc, hu, updateCalls, isUpdateCall]

/-- Witness for the amended C2: content equal to the discovered address,
zero update calls, no-op terminal state. -/
theorem update_iff_content_differs_witness :
    discoverIP servicesPlain = .ok ("203.0.113.10") ∧
    fetchDNSRecord cfgGlob fetchPlain = .ok recordPlain ∧
    updateCalls (runMain cfgGlob servicesPlain fetchPlain updOK).2 = 0 ∧
    runMain cfgGlob servicesPlain fetchPlain updOK =
      (.noOpDone ("example.com"), [.fetchCall (fetchRequestHeaders cfgGlob)]) := by
  have h := update_iff_content_differs cfgGlob servicesPlain fetchPlain updOK
    ("203.0.113.10") recordPlain (by decide) (by decide)
  refine ⟨by decide, by decide, ?_, ?_⟩
  · rw [h.1]; decide
  · have h2 := h.2 (by decide)
    rw [h2]; decide

/-- C3: whenever the fetched content differs from the discovered IP,
exactly one update request is issued, and its payload carries the new
content together with the record type, record name, TTL and proxied flag
taken unchanged from the configuration. -/
theorem update_carries_full_state (cfg : Config) (services : List ServiceOutcome)
    (fo : FetchOutcome) (uo : UpdateOutcome) (ip : String) (record : DNSRecord)
    (hd : discoverIP services = .ok ip)
    (hf : fetchDNSRecord cfg fo = .ok record)
    (hne : record.content ≠ ip) :
    ((runMain cfg services fo uo).2).filter isUpdateCall =
      [.updateCall record.id
        { type := cfg.RecordType, name := cfg.RecordName, content := ip,
          ttl := cfg.TTL, proxied := cfg.Proxied }
        (updateRequestHeaders cfg)] := by
  cases hu : updateDNSRecord cfg record.id ip uo <;>
    simp [runMain, hd, hf, hne, hu, updatePayload, isUpdateCall]

/-- Witness for C3: a stale record is updated by exactly one request that
carries the configured type, name, TTL and proxied flag with the new IP. -/
theorem update_carries_full_state_witness :
    discoverIP servicesPlain = .ok ("203.0.113.10") ∧
    fetchDNSRecord cfgGlob fetchOld = .ok recordOld ∧
    recordOld.content ≠ "203.0.113.10" ∧
    ((runMain cfgGlob servicesPlain fetchOld updOK).2).filter isUpdateCall =
      [.updateCall ("rid")
        { type := "A", name := "example.com", content := "203.0.113.10",
          ttl := 120, proxied := true }
        (updateRequestHeaders cfgGlob)] := by
  refine ⟨by decide, by decide, by decide, ?_⟩
  have h := update_carries_full_state cfgGlob servicesPlain fetchOld updOK
    ("203.0.113.10") recordOld (by decide) (by decide) (by decide)
  rw [h]; decide

/-- C6: a fetch response that decodes but carries success=false makes the
fetch fail with a provider-rejected error surfacing the provider's error
payload; the driver then stops without issuing any update request. -/
theorem fetch_rejected_aborts (cfg : Config) (services : List ServiceOutcome)
    (uo : UpdateOutcome) (p : ListResponse) (hs : p.success = false) :
    fetchDNSRecord cfg (.response 200 (some p)) = .error (.rejected p.errors) ∧
    updateCalls (runMain cfg services (.response 200 (some p)) uo).2 = 0 ∧
    (∀ ip, discoverIP services = .ok ip →
      runMain cfg services (.response 200 (some p)) uo =
        (.fetchFailed (.rejected p.errors), [.fetchCall (fetchRequestHeaders cfg)])) := by
  have hf : fetchDNSRecord cfg (.response 200 (some p)) = .error (.rejected p.errors) := by
    simp [fetchDNSRecord, hs]
  refine ⟨hf, ?_, ?_⟩
  · cases hd : discoverIP services <;>
      simp [runMain, hd, hf, updateCalls, isUpdateCall]
  · intro ip hd
    simp [runMain, hd, hf]

/-- Witness for C6 at a concrete rejected response: provider errors are
surfaced and no update request is issued. -/
theorem fetch_rejected_aborts_witness :
    rejectedResponse.success = false ∧
    fetchDNSRecord cfgTok (.response 200 (some rejectedResponse)) =
      .error (.rejected rejectedResponse.errors) ∧
    updateCalls (runMain cfgTok servicesPlain (.response 200 (some rejectedResponse)) updOK).2
      = 0 := by
  have h := fetch_rejected_aborts cfgTok servicesPlain updOK rejectedResponse (by decide)
  exact ⟨by decide, h.1, h.2.1⟩

/-- C7: a successful fetch response with zero matching records fails with
the not-found error, and the run issues no further request — in
particular no update and, the request vocabulary of the program having
only the list and the update operations, no record creation. -/
theorem fetch_not_found_aborts (cfg : Config) (services : List ServiceOutcome)
    (uo : UpdateOutcome) (p : ListResponse)
    (hs : p.success = true) (hr : p.result = []) :
    fetchDNSRecord cfg (.response 200 (some p)) = .error (.notFound cfg.RecordName) ∧
    updateCalls (runMain cfg services (.response 200 (some p)) uo).2 = 0 ∧
    (∀ a ∈ (runMain cfg services (.response 200 (some p)) uo).2,
      a = .fetchCall (fetchRequestHeaders cfg)) := by
  have hf : fetchDNSRecord cfg (.response 200 (some p)) = .error (.notFound cfg.RecordName) := by
    simp [fetchDNSRecord, hs, hr]
  refine ⟨hf, ?_, ?_⟩
  · cases hd : discoverIP services <;>
      simp [runMain, hd, hf, updateCalls, isUpdateCall]
  · cases hd : discoverIP services <;>
      simp [runMain, hd, hf]

/-- Witness for C7 at a concrete empty successful response. -/
theorem fetch_not_found_aborts_witness :
    emptyOKResponse.success = true ∧ emptyOKResponse.result = [] ∧
    fetchDNSRecord cfgTok (.response 200 (some emptyOKResponse)) =
      .error (.notFound ("example.com")) ∧
    updateCalls (runMain cfgTok servicesPlain (.response 200 (some emptyOKResponse)) updOK).2
      = 0 := by
  have h := fetch_not_found_aborts cfgTok servicesPlain updOK emptyOKResponse rfl rfl
  exact ⟨rfl, rfl, h.1, h.2.1⟩

/-- C5: token-method requests carry the bearer authorization header built
from the key alone — an empty email is fine and the raw key header is
never set — while global-method requests with the mandatory non-empty
email carry both the raw key header and the email header and no bearer
header; and the fetch request and the update request receive identical
authentication headers from the one applyAuthHeaders strategy. -/
theorem auth_headers_by_method (cfg : Config) :
    (cfg.AuthMethod = "token" →
      (fetchRequestHeaders cfg).authorization = some ("Bearer " ++ cfg.AuthKey) ∧
      (updateRequestHeaders cfg).authorization = some ("Bearer " ++ cfg.AuthKey) ∧
      (fetchRequestHeaders cfg).xAuthKey = none ∧
      (updateRequestHeaders cfg).xAuthKey = none) ∧
    (cfg.AuthMethod = "global" → cfg.AuthEmail ≠ "" →
      (fetchRequestHeaders cfg).xAuthKey = some cfg.AuthKey ∧
      (fetchRequestHeaders cfg).xAuthEmail = some cfg.AuthEmail ∧
      (updateRequestHeaders cfg).xAuthKey = some cfg.AuthKey ∧
      (updateRequestHeaders cfg).xAuthEmail = some cfg.AuthEmail ∧
      (fetchRequestHeaders cfg).authorization = none ∧
      (updateRequestHeaders cfg).authorization = none) ∧
    ((fetchRequestHeaders cfg).authorization = (updateRequestHeaders cfg).authorization ∧
     (fetchRequestHeaders cfg).xAuthKey = (updateRequestHeaders cfg).xAuthKey ∧
     (fetchRequestHeaders cfg).xAuthEmail = (updateRequestHeaders cfg).xAuthEmail) := by
  simp only [fetchRequestHeaders, updateRequestHeaders, applyAuthHeaders, emptyHeaders]
  by_cases he : cfg.AuthEmail = "" <;> by_cases hm : cfg.AuthMethod = "global" <;>
    simp_all

/-- Witness for C5: a token configuration with no email yields the bearer
header; a global configuration yields key and email headers on the update
request as well. -/
theorem auth_headers_by_method_witness :
    (fetchRequestHeaders cfgTok).authorization = some ("Bearer k") ∧
    (fetchRequestHeaders cfgTok).xAuthKey = none ∧
    (updateRequestHeaders cfgGlob).xAuthKey = some ("gk") ∧
    (updateRequestHeaders cfgGlob).xAuthEmail = some ("user@example.com") := by
  have h1 := auth_headers_by_method cfgTok
  have h2 := auth_headers_by_method cfgGlob
  have t1 := h1.1 (by decide)
  have t2 := h2.2.1 (by decide) (by decide)
  exact ⟨t1.1, t1.2.2.1, t2.2.2.1, t2.2.2.2.1⟩

/-- C8: every configuration loadConfig returns satisfies the data-model
invariant: TTL at least 60 with default 300 when the variable is unset,
proxied defaulting to false, a non-empty service list defaulting to the
three well-known endpoints, record type A, non-empty auth key, zone
identifier and record name, auth method exactly token or global, and a
non-empty email under global. -/
theorem loadConfig_invariant (env : Env) (cfg : Config)
    (h : loadConfig env = .ok cfg) :
    60 ≤ cfg.TTL ∧ (goTrimSpace env.ttl = "" → cfg.TTL = 300) ∧
    (goTrimSpace env.proxied = "" → cfg.Proxied = false) ∧
    cfg.IPServices ≠ [] ∧
    (goTrimSpace env.ipServices = "" → cfg.IPServices = defaultIPServices) ∧
    cfg.RecordType = "A" ∧
    cfg.AuthKey ≠ "" ∧ cfg.ZoneID ≠ "" ∧ cfg.RecordName ≠ "" ∧
    (cfg.AuthMethod = "token" ∨ cfg.AuthMethod = "global") ∧
    (cfg.AuthMethod = "global" → cfg.AuthEmail ≠ "") := by
  simp only [loadConfig] at h
  cases hT : parseTTL (goTrimSpace env.ttl) with
  | error e => rw [hT] at h; exact Except.noConfusion h
  | ok ttl =>
    rw [hT] at h
    cases hP : parseProxied (goTrimSpace env.proxied) with
    | error e => rw [hP] at h; exact Except.noConfusion h
    | ok proxied =>
      rw [hP] at h
      simp only at h
      by_cases hk : goTrimSpace env.authKey = ""
      · rw [if_pos hk] at h; exact Except.noConfusion h
      · rw [if_neg hk] at h
        cases hA : validateAuth
            (if goToLower (goTrimSpace env.authMethod) = "" then "token"
             else goToLower (goTrimSpace env.authMethod))
            (goTrimSpace env.authEmail) with
        | error e => rw [hA] at h; exact Except.noConfusion h
        | ok u =>
          cases u
          rw [hA] at h
          simp only at h
          by_cases hz : goTrimSpace env.zoneID = ""
          · rw [if_pos hz] at h; exact Except.noConfusion h
          · rw [if_neg hz] at h
            by_cases hn : goTrimSpace env.recordName = ""
            · rw [if_pos hn] at h; exact Except.noConfusion h
            · rw [if_neg hn] at h
              by_cases ht :
                  (if goToUpper (goTrimSpace env.recordType) = "" then "A"
                   else goToUpper (goTrimSpace env.recordType)) ≠ "A"
              · rw [if_pos ht] at h; exact Except.noConfusion h
              · rw [if_neg ht] at h
                injection h with h
                subst h
                have hT' := parseTTL_ok _ _ hT
                have hP' := parseProxied_ok _ _ hP
                have hS := parseServices_spec (goTrimSpace env.ipServices)
                have hA' := validateAuth_ok _ _ hA
                simp only [not_not] at ht
                exact ⟨hT'.1, hT'.2, hP', hS.1, hS.2, ht, hk, hz, hn, hA'.1, hA'.2⟩

/-- Witness for C8: the minimal environment with only the required
variables set loads to the all-defaults configuration, which satisfies
the invariant. -/
theorem loadConfig_invariant_witness :
    loadConfig envOK = .ok cfgDefault ∧
    60 ≤ cfgDefault.TTL ∧ cfgDefault.RecordType = "A" ∧ cfgDefault.IPServices ≠ [] ∧
    (cfgDefault.AuthMethod = "token" ∨ cfgDefault.AuthMethod = "global") := by
  have hload : loadConfig envOK = .ok cfgDefault := by decide
  have h := loadConfig_invariant envOK cfgDefault hload
  exact ⟨hload, h.1, h.2.2.2.2.2.1, h.2.2.2.1, h.2.2.2.2.2.2.2.2.2.1⟩

end Ddns
